import Mathlib

/-!
# Verification of `src/main.c` (minimal dual-stack TCP greeting server)

The program is a linear sequence of socket system calls followed by an
infinite accept loop.  We embed it shallowly as a deterministic state
machine: the program counter is `PState`, each system-call outcome is an
input (`SysIn`), and each transition emits a list of observable events
(`Event`): system calls with their arguments, `perror`/`printf` output,
`write`/`close` on file descriptors, and process exit.

Port parsing (`atoi` on `argv[1]`, default 1848, truncation by `htons`)
is modelled by executable functions `atoi`, `portOf`, `wirePort`,
`boundPort`.
-/

namespace FlyTest

/-- C `isspace` for the default locale, as consulted by `atoi`. -/
def isSpaceC (c : Char) : Bool :=
  c = ' ' ∨ c = '\t' ∨ c = '\n' ∨ c = '\x0b' ∨ c = '\x0c' ∨ c = '\x0d'

/-- Leading-whitespace skipping performed by C `atoi`. -/
def skipWs : List Char → List Char
  | [] => []
  | c :: cs => if isSpaceC c then skipWs cs else c :: cs

/-- Accumulate the longest leading run of decimal digits, as C `atoi` does
after the optional sign; stops at the first non-digit. -/
def digitsVal (acc : Int) : List Char → Int
  | [] => acc
  | c :: cs => if c.isDigit then digitsVal (10 * acc + ((c.toNat : Int) - 48)) cs else acc

/-- Body of C `atoi` after whitespace skipping: optional `-`/`+` sign,
then the leading run of decimal digits; `0` when no digits are found. -/
def atoiBody : List Char → Int
  | [] => 0
  | c :: rest =>
    if c = '-' then - digitsVal 0 rest
    else if c = '+' then digitsVal 0 rest
    else digitsVal 0 (c :: rest)

/-- C `atoi`: skip whitespace, optional sign, then the leading digit run.
(Overflow of the C `int` is undefined behaviour in the source and is
modelled as unbounded.) -/
def atoi (s : String) : Int := atoiBody (skipWs s.data)

/-- `main.c` lines 14-17: `port = 1848`, overwritten by `atoi(argv[1])`
when `argc > 1`.  `argv` includes the program name at position 0. -/
def portOf (argv : List String) : Int :=
  match argv with
  | _ :: a :: _ => atoi a
  | _ => 1848

/-- `htons(port)` on line 41 truncates the C `int` to an unsigned 16-bit
value; the TCP port actually bound is that value. -/
def wirePort (port : Int) : Nat := (port % 65536).toNat

/-- The TCP port the server binds, as a function of `argv`. -/
def boundPort (argv : List String) : Nat := wirePort (portOf argv)

/-- The reference reading of a digit string as a decimal numeral
(most significant digit first); used only to state claims about `atoi`. -/
def decValue (cs : List Char) : Nat :=
  cs.foldl (fun a c => 10 * a + (c.toNat - 48)) 0

/-- The 6 bytes `"hello\n"` written on line 66. -/
def helloBytes : List Nat := [0x68, 0x65, 0x6c, 0x6c, 0x6f, 0x0a]

/-- The startup message printed on line 55. -/
def listenMsg (port : Int) : String := "Server listening on port " ++ toString port

/-- System calls issued by `main.c`, with the arguments the source passes.
`cSocket` is `socket(AF_INET6, SOCK_STREAM, 0)`; `cSetReuseAddr v` is
`setsockopt(fd, SOL_SOCKET, SO_REUSEADDR, &v)`; `cSetV6Only v` is
`setsockopt(fd, IPPROTO_IPV6, IPV6_V6ONLY, &v)`; `cBind wildcard p` is
`bind` to `in6addr_any` (when `wildcard`) with 16-bit port `p`;
`cListen b` is `listen(fd, b)`; `cAccept` is `accept`. -/
inductive Call where
  | cSocket : Call
  | cSetReuseAddr : Int → Call
  | cSetV6Only : Int → Call
  | cBind : Bool → Nat → Call
  | cListen : Nat → Call
  | cAccept : Call
deriving DecidableEq

/-- Observable events of a run: a system call being issued, `perror`
output, `printf` output, a `write` of bytes to a descriptor, a `read`
from a descriptor (never emitted by this program), a `close`, a
successful `accept` returning a descriptor, and process exit. -/
inductive Event where
  | syscallE : Call → Event
  | perrorE : String → Event
  | printfE : String → Event
  | writeE : Nat → List Nat → Event
  | readE : Nat → Event
  | closeE : Nat → Event
  | acceptedE : Nat → Event
  | exitE : Nat → Event
deriving DecidableEq

/-- Program counter of `main`: before each bootstrap call, at the top of
the accept loop, exited via `exit(code)`, or returned from `main`
(line 73; never reached). -/
inductive PState where
  | pStart : PState
  | pSocketDone : PState
  | pOpt1Done : PState
  | pOpt2Done : PState
  | pBindDone : PState
  | pLoop : PState
  | pExited : Nat → PState
  | pReturned : Nat → PState
deriving DecidableEq

/-- Outcome of the next system call: `fdR v` is the return value of
`socket()` (a descriptor on success, `-1` on failure — line 19 tests it
with `== 0`, not `< 0`); `res ok` is the outcome of the checked
`setsockopt`/`bind`/`listen` calls, whose `!= 0` / `< 0` error tests are
equivalent to a success Boolean since those calls return 0 or -1;
`acc r` is the outcome of `accept` (`some fd` on success, `none` on
failure). -/
inductive SysIn where
  | fdR : Int → SysIn
  | res : Bool → SysIn
  | acc : Option Nat → SysIn
deriving DecidableEq

/-- Events of one iteration of the `while(1)` loop (lines 57-70), given
the outcome of its `accept` call. -/
def iterTrace : Option Nat → List Event
  | none => [.syscallE .cAccept, .perrorE "accept"]
  | some fd =>
      [.syscallE .cAccept, .acceptedE fd, .printfE "Connection accepted",
       .writeE fd helloBytes, .printfE "Data written",
       .closeE fd, .printfE "Connection closed"]

/-- One step of `main`: at each program point, issue the corresponding
system call, consume its outcome, and emit the events the source produces
on that path.  An input of the wrong shape for the current point (which
cannot arise in a real run) leaves the state unchanged.

The `pStart` branch reproduces line 19 exactly as written:
`if ((server_fd = socket(...)) == 0)`.  The error branch is taken only
when `socket()` returns 0 (which is a valid descriptor, i.e. success);
the actual failure value -1 makes the test false and execution
continues. -/
def step (port : Int) : PState → SysIn → PState × List Event
  | .pStart, .fdR v =>
      if v = 0 then (.pExited 1, [.syscallE .cSocket, .perrorE "socket failed", .exitE 1])
      else (.pSocketDone, [.syscallE .cSocket])
  | .pSocketDone, .res ok =>
      if ok then (.pOpt1Done, [.syscallE (.cSetReuseAddr 1)])
      else (.pExited 1, [.syscallE (.cSetReuseAddr 1), .perrorE "setsockopt", .exitE 1])
  | .pOpt1Done, .res ok =>
      if ok then (.pOpt2Done, [.syscallE (.cSetV6Only 0)])
      else (.pExited 1,
        [.syscallE (.cSetV6Only 0), .perrorE "setsockopt IPV6_V6ONLY", .exitE 1])
  | .pOpt2Done, .res ok =>
      if ok then (.pBindDone, [.syscallE (.cBind true (wirePort port))])
      else (.pExited 1,
        [.syscallE (.cBind true (wirePort port)), .perrorE "bind failed", .exitE 1])
  | .pBindDone, .res ok =>
      if ok then (.pLoop, [.syscallE (.cListen 3), .printfE (listenMsg port)])
      else (.pExited 1, [.syscallE (.cListen 3), .perrorE "listen", .exitE 1])
  | .pLoop, .acc r => (.pLoop, iterTrace r)
  | .pExited c, _ => (.pExited c, [])
  | .pReturned c, _ => (.pReturned c, [])
  | s, _ => (s, [])

/-- Run `step` over a list of system-call outcomes, concatenating the
emitted events. -/
def steps (port : Int) : PState → List SysIn → PState × List Event
  | s, [] => (s, [])
  | s, i :: is =>
      let p := step port s i
      let q := steps port p.1 is
      (q.1, p.2 ++ q.2)

/-- The environment of a run: the value `socket()` returns (a
descriptor on success, -1 on failure), whether each later checked
bootstrap call succeeds, and the outcome of the `k`-th `accept` call. -/
structure Env where
  socketRet : Int
  reuseOk : Bool
  v6onlyOk : Bool
  bindOk : Bool
  listenOk : Bool
  accepts : Nat → Option Nat

/-- All five checked conditions pass, so the run reaches the serve loop:
`socket()` returned nonzero — note that because line 19 tests `== 0`,
the failure value -1 also passes this check — and the four checked calls
succeeded. -/
def bootOk (env : Env) : Bool :=
  (!(env.socketRet == 0)) && env.reuseOk && env.v6onlyOk && env.bindOk && env.listenOk

/-- The bootstrap inputs, in source order. -/
def bootIns (env : Env) : List SysIn :=
  [.fdR env.socketRet, .res env.reuseOk, .res env.v6onlyOk,
   .res env.bindOk, .res env.listenOk]

/-- The input sequence of a run that reaches the `n`-th accept iteration. -/
def inputs (env : Env) (n : Nat) : List SysIn :=
  bootIns env ++ (((List.range n).map env.accepts).map SysIn.acc)

/-- A run of `main` with `n` loop iterations attempted. -/
def run (port : Int) (env : Env) (n : Nat) : PState × List Event :=
  steps port .pStart (inputs env n)

/-- Events of the first `n` loop iterations. -/
def serveTrace (env : Env) (n : Nat) : List Event :=
  (((List.range n).map env.accepts).map iterTrace).flatten

/-- Events of a fully successful bootstrap (lines 19-55), ending with the
startup message. -/
def bootTraceOk (port : Int) : List Event :=
  [.syscallE .cSocket, .syscallE (.cSetReuseAddr 1), .syscallE (.cSetV6Only 0),
   .syscallE (.cBind true (wirePort port)), .syscallE (.cListen 3),
   .printfE (listenMsg port)]

/-- Effect of one event on the set of currently-open accepted-connection
descriptors. -/
def openStep (s : List Nat) : Event → List Nat
  | .acceptedE fd => fd :: s
  | .closeE fd => s.erase fd
  | _ => s

/-- Accepted-connection descriptors still open after a trace. -/
def openSet (tr : List Event) : List Nat := tr.foldl openStep []

/-! ## Basic lemmas about runs -/

theorem steps_append (port : Int) (s : PState) (a b : List SysIn) :
    steps port s (a ++ b) =
      ((steps port (steps port s a).1 b).1,
       (steps port s a).2 ++ (steps port (steps port s a).1 b).2) := by
  induction a generalizing s with
  | nil => simp [steps]
  | cons i a ih => simp [steps, ih, List.append_assoc]

theorem steps_exited (port : Int) (c : Nat) (is : List SysIn) :
    steps port (.pExited c) is = (.pExited c, []) := by
  induction is with
  | nil => rfl
  | cons i is ih => simp [steps, step, ih]

theorem step_loop (port : Int) (r : Option Nat) :
    step port .pLoop (.acc r) = (.pLoop, iterTrace r) := rfl

theorem steps_loop_accs (port : Int) (rs : List (Option Nat)) :
    steps port .pLoop (rs.map SysIn.acc) = (.pLoop, (rs.map iterTrace).flatten) := by
  induction rs with
  | nil => simp [steps]
  | cons r rs ih => simp [steps, step, ih]

theorem steps_loop_accs_comp (port : Int) (f : Nat → Option Nat) (l : List Nat) :
    steps port .pLoop (l.map (SysIn.acc ∘ f)) =
      (.pLoop, (l.map (iterTrace ∘ f)).flatten) := by
  induction l with
  | nil => simp [steps]
  | cons x l ih => simp [steps, step, ih]

/-- Complete case analysis of a run: which checked condition trips first
determines the final state and the whole event trace.  (The first check
is line 19's `== 0`: it exits when `socket()` returns 0 and lets every
other return value — including the failure value -1 — through.) -/
theorem run_eq (port : Int) (env : Env) (n : Nat) :
    run port env n =
      if env.socketRet = 0 then
        (.pExited 1, [.syscallE .cSocket, .perrorE "socket failed", .exitE 1])
      else if env.reuseOk = false then
        (.pExited 1, [.syscallE .cSocket, .syscallE (.cSetReuseAddr 1),
          .perrorE "setsockopt", .exitE 1])
      else if env.v6onlyOk = false then
        (.pExited 1, [.syscallE .cSocket, .syscallE (.cSetReuseAddr 1),
          .syscallE (.cSetV6Only 0), .perrorE "setsockopt IPV6_V6ONLY", .exitE 1])
      else if env.bindOk = false then
        (.pExited 1, [.syscallE .cSocket, .syscallE (.cSetReuseAddr 1),
          .syscallE (.cSetV6Only 0), .syscallE (.cBind true (wirePort port)),
          .perrorE "bind failed", .exitE 1])
      else if env.listenOk = false then
        (.pExited 1, [.syscallE .cSocket, .syscallE (.cSetReuseAddr 1),
          .syscallE (.cSetV6Only 0), .syscallE (.cBind true (wirePort port)),
          .syscallE (.cListen 3), .perrorE "listen", .exitE 1])
      else (.pLoop, bootTraceOk port ++ serveTrace env n) := by
  rcases eq_or_ne env.socketRet 0 with h1 | h1 <;>
    cases h2 : env.reuseOk <;> cases h3 : env.v6onlyOk <;>
    cases h4 : env.bindOk <;> cases h5 : env.listenOk <;>
      simp [run, inputs, bootIns, steps, step, h1, h2, h3, h4, h5, steps_exited,
        steps_loop_accs, steps_loop_accs_comp, bootTraceOk, serveTrace]

/-! ## Per-step safety facts -/

theorem step_no_read (port : Int) (s : PState) (i : SysIn) (fd : Nat) :
    Event.readE fd ∉ (step port s i).2 := by
  cases i with
  | fdR v => cases s <;> rcases eq_or_ne v 0 with rfl | hv <;> simp_all [step]
  | res ok => cases s <;> cases ok <;> simp [step]
  | acc r => cases s <;> cases r <;> simp [step, iterTrace, helloBytes]

theorem steps_no_read (port : Int) (s : PState) (is : List SysIn) (fd : Nat) :
    Event.readE fd ∉ (steps port s is).2 := by
  induction is generalizing s with
  | nil => simp [steps]
  | cons i is ih =>
    intro h
    simp only [steps, List.mem_append] at h
    rcases h with h | h
    · exact step_no_read port s i fd h
    · exact ih _ h

theorem step_write_hello (port : Int) (s : PState) (i : SysIn) (fd : Nat) (bs : List Nat)
    (h : Event.writeE fd bs ∈ (step port s i).2) : bs = helloBytes := by
  cases i with
  | fdR v => cases s <;> rcases eq_or_ne v 0 with rfl | hv <;> simp_all [step]
  | res ok => cases s <;> cases ok <;> simp_all [step]
  | acc r => cases s <;> cases r <;> simp_all [step, iterTrace]

theorem steps_write_hello (port : Int) (s : PState) (is : List SysIn) (fd : Nat)
    (bs : List Nat) (h : Event.writeE fd bs ∈ (steps port s is).2) : bs = helloBytes := by
  induction is generalizing s with
  | nil => simp [steps] at h
  | cons i is ih =>
    simp only [steps, List.mem_append] at h
    rcases h with h | h
    · exact step_write_hello port s i fd bs h
    · exact ih _ h

theorem step_exit_one (port : Int) (s : PState) (i : SysIn) (c : Nat)
    (h : Event.exitE c ∈ (step port s i).2) : c = 1 := by
  cases i with
  | fdR v => cases s <;> rcases eq_or_ne v 0 with rfl | hv <;> simp_all [step]
  | res ok => cases s <;> cases ok <;> simp_all [step]
  | acc r => cases s <;> cases r <;> simp_all [step, iterTrace]

theorem steps_exit_one (port : Int) (s : PState) (is : List SysIn) (c : Nat)
    (h : Event.exitE c ∈ (steps port s is).2) : c = 1 := by
  induction is generalizing s with
  | nil => simp [steps] at h
  | cons i is ih =>
    simp only [steps, List.mem_append] at h
    rcases h with h | h
    · exact step_exit_one port s i c h
    · exact ih _ h

theorem step_fst_returned (port : Int) (s : PState) (i : SysIn) (c : Nat)
    (h : (step port s i).1 = .pReturned c) : s = .pReturned c := by
  cases i with
  | fdR v => cases s <;> rcases eq_or_ne v 0 with rfl | hv <;> simp_all [step]
  | res ok => cases s <;> cases ok <;> simp_all [step]
  | acc r => cases s <;> cases r <;> simp_all [step]

theorem steps_fst_returned (port : Int) (s : PState) (is : List SysIn) (c : Nat)
    (h : (steps port s is).1 = .pReturned c) : s = .pReturned c := by
  induction is generalizing s with
  | nil => simpa [steps] using h
  | cons i is ih =>
    simp only [steps] at h
    exact step_fst_returned port s i c (ih _ h)

/-! ## Arithmetic facts about `atoi` and the port computation -/

theorem digit_bounds (c : Char) (h : c.isDigit = true) : 48 ≤ c.toNat ∧ c.toNat ≤ 57 := by
  simp only [Char.isDigit, Bool.and_eq_true, decide_eq_true_eq] at h
  obtain ⟨h1, h2⟩ := h
  exact ⟨h1, h2⟩

theorem digit_not_space (c : Char) (h : c.isDigit = true) : isSpaceC c = false := by
  simp only [isSpaceC, decide_eq_false_iff_not]
  rintro (rfl | rfl | rfl | rfl | rfl | rfl) <;> exact absurd h (by decide)

theorem digit_ne_minus (c : Char) (h : c.isDigit = true) : c ≠ '-' := by
  intro hc; subst hc; simp [Char.isDigit] at h

theorem digit_ne_plus (c : Char) (h : c.isDigit = true) : c ≠ '+' := by
  intro hc; subst hc; simp [Char.isDigit] at h

theorem digitsVal_nat (cs : List Char) (h : cs.all Char.isDigit = true) (acc : Nat) :
    digitsVal (acc : Int) cs =
      ((cs.foldl (fun a c => 10 * a + (c.toNat - 48)) acc : Nat) : Int) := by
  induction cs generalizing acc with
  | nil => rfl
  | cons c cs ih =>
    simp only [List.all_cons, Bool.and_eq_true] at h
    have h48 := (digit_bounds c h.1).1
    have hcast : (10 * (acc : Int) + ((c.toNat : Int) - 48)) =
        ((10 * acc + (c.toNat - 48) : Nat) : Int) := by
      push_cast [Nat.cast_sub h48]
      ring
    simp only [digitsVal, h.1, if_true, List.foldl_cons]
    rw [hcast, ih h.2]

/-- On a non-empty all-digits argument, `atoi` returns exactly the decimal
value of the digits. -/
theorem atoi_digits (cs : List Char) (hne : cs ≠ []) (h : cs.all Char.isDigit = true) :
    atoi (String.mk cs) = (decValue cs : Int) := by
  cases cs with
  | nil => exact absurd rfl hne
  | cons c rest =>
    simp only [List.all_cons, Bool.and_eq_true] at h
    have hs : skipWs (c :: rest) = c :: rest := by
      simp [skipWs, digit_not_space c h.1]
    show atoi (String.mk (c :: rest)) = _
    unfold atoi
    simp only [String.data]
    rw [hs]
    simp only [atoiBody, if_neg (digit_ne_minus c h.1), if_neg (digit_ne_plus c h.1)]
    rw [show (0 : Int) = ((0 : Nat) : Int) by rfl]
    exact digitsVal_nat (c :: rest) (by simp [h.1, h.2]) 0

/-- The argument has no leading number: after optional whitespace and an
optional single sign there is no digit.  On exactly these inputs C `atoi`
finds no digits to convert. -/
def noNumBody : List Char → Bool
  | [] => true
  | c :: rest =>
    if c = '-' ∨ c = '+' then
      match rest with
      | [] => true
      | d :: _ => !d.isDigit
    else !c.isDigit

/-- The argument has no leading number (see `noNumBody`). -/
def noNumber (s : String) : Bool := noNumBody (skipWs s.data)

theorem atoi_noNumber (s : String) (h : noNumber s = true) : atoi s = 0 := by
  have hnum : ∀ (d : Char) (ds : List Char), d.isDigit = false → digitsVal 0 (d :: ds) = 0 := by
    intro d ds hd; simp [digitsVal, hd]
  unfold noNumber at h
  unfold atoi
  cases hsk : skipWs s.data with
  | nil => rfl
  | cons c rest =>
    rw [hsk] at h
    by_cases hm : c = '-'
    · subst hm
      rw [show atoiBody ('-' :: rest) = - digitsVal 0 rest by simp [atoiBody]]
      cases rest with
      | nil => rfl
      | cons d ds =>
        rw [show noNumBody ('-' :: d :: ds) = !d.isDigit by simp [noNumBody]] at h
        simp only [Bool.not_eq_true'] at h
        rw [hnum d ds h, neg_zero]
    · by_cases hp : c = '+'
      · subst hp
        rw [show atoiBody ('+' :: rest) = digitsVal 0 rest by simp [atoiBody, hm]]
        cases rest with
        | nil => rfl
        | cons d ds =>
          rw [show noNumBody ('+' :: d :: ds) = !d.isDigit by simp [noNumBody]] at h
          simp only [Bool.not_eq_true'] at h
          exact hnum d ds h
      · rw [show noNumBody (c :: rest) = !c.isDigit by
          simp [noNumBody, if_neg (by simp [hm, hp] : ¬(c = '-' ∨ c = '+'))]] at h
        simp only [Bool.not_eq_true'] at h
        rw [show atoiBody (c :: rest) = digitsVal 0 (c :: rest) by
          simp [atoiBody, if_neg hm, if_neg hp]]
        exact hnum c rest h

/-! ## Open-descriptor accounting -/

theorem openFold_iter (r : Option Nat) (s : List Nat) :
    List.foldl openStep s (iterTrace r) = s := by
  cases r <;> simp [iterTrace, openStep]

theorem openFold_flatten (rs : List (Option Nat)) (s : List Nat) :
    List.foldl openStep s ((rs.map iterTrace).flatten) = s := by
  induction rs generalizing s with
  | nil => simp
  | cons r rs ih =>
    simp only [List.map_cons, List.flatten_cons, List.foldl_append, openFold_iter]
    exact ih s

theorem openFold_serve (env : Env) (n : Nat) (s : List Nat) :
    List.foldl openStep s (serveTrace env n) = s := by
  unfold serveTrace
  exact openFold_flatten _ s

/-- A `close` in the serve phase closes a descriptor that some `accept`
returned. -/
theorem close_in_serve (env : Env) (n fd : Nat)
    (h : Event.closeE fd ∈ serveTrace env n) : ∃ k, k < n ∧ env.accepts k = some fd := by
  unfold serveTrace at h
  rw [List.mem_flatten] at h
  obtain ⟨l, hl, hmem⟩ := h
  rw [List.mem_map] at hl
  obtain ⟨r, hr, rfl⟩ := hl
  rw [List.mem_map] at hr
  obtain ⟨k, hk, rfl⟩ := hr
  rw [List.mem_range] at hk
  refine ⟨k, hk, ?_⟩
  cases hacc : env.accepts k with
  | none => rw [hacc] at hmem; simp [iterTrace] at hmem
  | some fd' =>
    rw [hacc] at hmem
    simp only [iterTrace, List.mem_cons, List.not_mem_nil, or_false] at hmem
    rcases hmem with h | h | h | h | h | h | h <;> simp_all

/-- The only `perror` the serve loop emits is the accept error report. -/
theorem perror_in_serve (env : Env) (n : Nat) (msg : String)
    (h : Event.perrorE msg ∈ serveTrace env n) : msg = "accept" := by
  unfold serveTrace at h
  rw [List.mem_flatten] at h
  obtain ⟨l, hl, hmem⟩ := h
  rw [List.mem_map] at hl
  obtain ⟨r, _, rfl⟩ := hl
  cases r with
  | none => simp_all [iterTrace]
  | some fd => simp [iterTrace] at hmem

/-- The serve loop never emits a process exit. -/
theorem exit_in_serve (env : Env) (n : Nat) (c : Nat) :
    Event.exitE c ∉ serveTrace env n := by
  intro h
  unfold serveTrace at h
  rw [List.mem_flatten] at h
  obtain ⟨l, hl, hmem⟩ := h
  rw [List.mem_map] at hl
  obtain ⟨r, _, rfl⟩ := hl
  cases r <;> simp [iterTrace] at hmem

/-- A close of a descriptor during a run can only come from a successful
`accept` that returned that descriptor. -/
theorem close_in_run (port : Int) (env : Env) (n fd : Nat)
    (h : Event.closeE fd ∈ (run port env n).2) : ∃ k, k < n ∧ env.accepts k = some fd := by
  rw [run_eq] at h
  rcases eq_or_ne env.socketRet 0 with h1 | h1 <;>
    cases h2 : env.reuseOk <;> cases h3 : env.v6onlyOk <;>
    cases h4 : env.bindOk <;> cases h5 : env.listenOk <;> simp_all [bootTraceOk]
  exact close_in_serve env n fd (by assumption)

/-! ## Concrete environments used in witnesses -/

/-- Bootstrap fully succeeds: `socket()` returns descriptor 3, every
check passes, the `k`-th accept returns descriptor `k+4`. -/
def envAll : Env := ⟨3, true, true, true, true, fun k => some (k + 4)⟩

/-- `socket()` fails, returning -1; every later call would succeed. -/
def envSockFail : Env := ⟨-1, true, true, true, true, fun k => some (k + 4)⟩

/-- `socket()` succeeds returning descriptor 0. -/
def envSockZero : Env := ⟨0, true, true, true, true, fun k => some (k + 4)⟩

/-- `setsockopt(SO_REUSEADDR)` fails. -/
def envReuseFail : Env := ⟨3, false, true, true, true, fun _ => none⟩

/-! ## Claims -/

/-- C1 (code bug at `main.c:19`): the claim says every bootstrap failure,
socket creation included, is fatal with status 1.  The source tests the
socket return with `== 0`, but a failing `socket()` returns -1, so
socket-creation failure is NOT fatal: the check passes, no error is
printed, no exit occurs, and — when the later checked calls succeed —
the run reaches the serve loop with the invalid descriptor.  The
"socket failed"/exit(1) branch instead fires when `socket()` succeeds
returning descriptor 0.  The other four bootstrap failures (setsockopt
twice, bind, listen) are fatal exactly as the claim states. -/
theorem c1_socket_check_bug (port : Int) (env : Env) (n : Nat) :
    (step port .pStart (.fdR (-1)) = (.pSocketDone, [.syscallE .cSocket])) ∧
    (step port .pStart (.fdR 0) =
      (.pExited 1, [.syscallE .cSocket, .perrorE "socket failed", .exitE 1])) ∧
    (env.socketRet = -1 → env.reuseOk = true → env.v6onlyOk = true →
      env.bindOk = true → env.listenOk = true →
      (run port env n).1 = .pLoop ∧
      Event.perrorE "socket failed" ∉ (run port env n).2 ∧
      (∀ c : Nat, Event.exitE c ∉ (run port env n).2)) ∧
    (env.socketRet ≠ 0 → env.reuseOk = false →
      run port env n =
        (.pExited 1, [.syscallE .cSocket, .syscallE (.cSetReuseAddr 1),
          .perrorE "setsockopt", .exitE 1])) ∧
    (env.socketRet ≠ 0 → env.reuseOk = true → env.v6onlyOk = false →
      run port env n =
        (.pExited 1, [.syscallE .cSocket, .syscallE (.cSetReuseAddr 1),
          .syscallE (.cSetV6Only 0), .perrorE "setsockopt IPV6_V6ONLY", .exitE 1])) ∧
    (env.socketRet ≠ 0 → env.reuseOk = true → env.v6onlyOk = true →
      env.bindOk = false →
      run port env n =
        (.pExited 1, [.syscallE .cSocket, .syscallE (.cSetReuseAddr 1),
          .syscallE (.cSetV6Only 0), .syscallE (.cBind true (wirePort port)),
          .perrorE "bind failed", .exitE 1])) ∧
    (env.socketRet ≠ 0 → env.reuseOk = true → env.v6onlyOk = true →
      env.bindOk = true → env.listenOk = false →
      run port env n =
        (.pExited 1, [.syscallE .cSocket, .syscallE (.cSetReuseAddr 1),
          .syscallE (.cSetV6Only 0), .syscallE (.cBind true (wirePort port)),
          .syscallE (.cListen 3), .perrorE "listen", .exitE 1])) := by
  refine ⟨by simp [step], by simp [step], fun h1 h2 h3 h4 h5 => ?_,
    fun h1 h2 => ?_, fun h1 h2 h3 => ?_, fun h1 h2 h3 h4 => ?_,
    fun h1 h2 h3 h4 h5 => ?_⟩
  · have h1' : env.socketRet ≠ 0 := by rw [h1]; decide
    have hrun : run port env n = (.pLoop, bootTraceOk port ++ serveTrace env n) := by
      rw [run_eq]
      simp [h1', h2, h3, h4, h5]
    refine ⟨by rw [hrun], ?_, ?_⟩
    · intro hm
      rw [hrun] at hm
      rcases List.mem_append.mp hm with hm | hm
      · simp [bootTraceOk] at hm
      · exact absurd (perror_in_serve env n _ hm) (by decide)
    · intro c hm
      rw [hrun] at hm
      rcases List.mem_append.mp hm with hm | hm
      · simp [bootTraceOk] at hm
      · exact exit_in_serve env n c hm
  all_goals rw [run_eq]
  all_goals simp [*]

/-- Witness for C1: with `socket()` returning -1 and all later calls
succeeding the run reaches the serve loop (failure not fatal), while a
concrete setsockopt failure is fatal as claimed. -/
theorem c1_witness :
    (run 1848 envSockFail 1).1 = .pLoop ∧
    run 1848 envReuseFail 2 =
      (.pExited 1, [.syscallE .cSocket, .syscallE (.cSetReuseAddr 1),
        .perrorE "setsockopt", .exitE 1]) :=
  ⟨((c1_socket_check_bug 1848 envSockFail 1).2.2.1 rfl rfl rfl rfl rfl).1,
   (c1_socket_check_bug 1848 envReuseFail 2).2.2.2.1 (by decide) rfl⟩

/-- C2: for every connection returned by a successful accept, the server
writes exactly the 6 bytes `hello\n` (0x68 0x65 0x6c 0x6c 0x6f 0x0a) to
that descriptor and then closes it, within the same loop iteration; every
`write` event of any run carries exactly those bytes, and no run ever
reads from any descriptor. -/
theorem c2_hello_exactly :
    (∀ (port : Int) (fd : Nat),
      step port .pLoop (.acc (some fd)) =
        (.pLoop, [.syscallE .cAccept, .acceptedE fd, .printfE "Connection accepted",
          .writeE fd helloBytes, .printfE "Data written",
          .closeE fd, .printfE "Connection closed"])) ∧
    helloBytes = [0x68, 0x65, 0x6c, 0x6c, 0x6f, 0x0a] ∧
    (∀ (port : Int) (s : PState) (is : List SysIn) (fd : Nat) (bs : List Nat),
      Event.writeE fd bs ∈ (steps port s is).2 → bs = helloBytes) ∧
    (∀ (port : Int) (s : PState) (is : List SysIn) (fd : Nat),
      Event.readE fd ∉ (steps port s is).2) :=
  ⟨fun _ _ => rfl, rfl, steps_write_hello, steps_no_read⟩

/-- Witness for C2: the bytes written on a concrete accepted connection
are exactly `hello\n`. -/
theorem c2_witness : [104, 101, 108, 108, 111, 10] = helloBytes :=
  c2_hello_exactly.2.2.1 1848 .pLoop [.acc (some 7)] 7 [104, 101, 108, 108, 111, 10]
    (by decide)

/-- C4: a failed accept is reported and the loop continues: the state
stays at the loop head with only the `accept` call and the error report
emitted, no exit occurs, and a subsequent successful accept is still
served in full. -/
theorem c4_accept_error_nonfatal (port : Int) (fd : Nat) :
    step port .pLoop (.acc none) = (.pLoop, [.syscallE .cAccept, .perrorE "accept"]) ∧
    steps port .pLoop [.acc none, .acc (some fd)] =
      (.pLoop, [.syscallE .cAccept, .perrorE "accept"] ++
        [.syscallE .cAccept, .acceptedE fd, .printfE "Connection accepted",
         .writeE fd helloBytes, .printfE "Data written",
         .closeE fd, .printfE "Connection closed"]) :=
  ⟨rfl, rfl⟩

/-- C5: once bootstrap succeeds the serve loop never exits on its own:
every run ends at the loop head whatever the accept outcomes, no run from
the start ever reaches the `return 0` state (line 73 is dead code), and
no run ever emits an exit with status 0. -/
theorem c5_loop_never_exits :
    (∀ (port : Int) (env : Env) (n : Nat), bootOk env = true →
      (run port env n).1 = .pLoop) ∧
    (∀ (port : Int) (is : List SysIn) (c : Nat),
      (steps port .pStart is).1 ≠ .pReturned c) ∧
    (∀ (port : Int) (is : List SysIn), Event.exitE 0 ∉ (steps port .pStart is).2) := by
  refine ⟨?_, ?_, ?_⟩
  · intro port env n h
    simp only [bootOk, Bool.and_eq_true, Bool.not_eq_true', beq_eq_false_iff_ne] at h
    obtain ⟨⟨⟨⟨h1, h2⟩, h3⟩, h4⟩, h5⟩ := h
    rw [run_eq]
    simp [h1, h2, h3, h4, h5]
  · intro port is c h
    exact absurd (steps_fst_returned port _ is c h) (by simp)
  · intro port is h
    exact absurd (steps_exit_one port _ is 0 h) (by omega)

/-- Witness for C5 at a concrete successful environment. -/
theorem c5_witness : (run 1848 envAll 2).1 = .pLoop :=
  c5_loop_never_exits.1 1848 envAll 2 (by decide)

/-- C6: a successful bootstrap performs, in order: create a stream
socket, `setsockopt SO_REUSEADDR` with value 1, `setsockopt IPV6_V6ONLY`
with value 0, `bind` to the wildcard address on the configured 16-bit
port, and `listen` with backlog exactly 3. -/
theorem c6_bootstrap_sequence (port : Int) (env : Env) (n : Nat)
    (h : bootOk env = true) :
    (run port env n).2 =
      [.syscallE .cSocket, .syscallE (.cSetReuseAddr 1), .syscallE (.cSetV6Only 0),
       .syscallE (.cBind true (wirePort port)), .syscallE (.cListen 3),
       .printfE (listenMsg port)] ++ serveTrace env n := by
  simp only [bootOk, Bool.and_eq_true, Bool.not_eq_true', beq_eq_false_iff_ne] at h
  obtain ⟨⟨⟨⟨h1, h2⟩, h3⟩, h4⟩, h5⟩ := h
  rw [run_eq]
  simp [h1, h2, h3, h4, h5, bootTraceOk]

/-- Witness for C6 at a concrete successful environment. -/
theorem c6_witness :
    (run 1848 envAll 1).2 =
      [.syscallE .cSocket, .syscallE (.cSetReuseAddr 1), .syscallE (.cSetV6Only 0),
       .syscallE (.cBind true (wirePort 1848)), .syscallE (.cListen 3),
       .printfE (listenMsg 1848)] ++ serveTrace envAll 1 :=
  c6_bootstrap_sequence 1848 envAll 1 (by decide)

/-- C7 as stated is false: socket creation is part of the bootstrap it
quantifies over, but with `socket()` failing (returning -1) and the
checked calls succeeding, the startup message is printed and the run
reaches the serve loop — no exit with status 1 precedes the message. -/
theorem c7_counterexample :
    Event.printfE (listenMsg 1848) ∈ (run 1848 envSockFail 0).2 ∧
    (run 1848 envSockFail 0).1 = .pLoop :=
  ⟨by decide, by decide⟩

/-- C7 (amended): the startup message "Server listening on port N" is
printed exactly when all five checked conditions pass, and then only
after the five bootstrap calls: if any checked condition trips
(`socket()` returning 0, or a failure of either setsockopt, bind or
listen) the run exits with status 1 without ever emitting the message;
otherwise the message appears immediately after the five calls, before
any serving activity.  A `socket()` failure (return -1) is not caught by
line 19's `== 0` check and so does not prevent the message (see C1). -/
theorem c7_message_after_checks (port : Int) (env : Env) (n : Nat) :
    (bootOk env = false →
      (run port env n).1 = .pExited 1 ∧
      Event.exitE 1 ∈ (run port env n).2 ∧
      Event.printfE (listenMsg port) ∉ (run port env n).2) ∧
    (bootOk env = true →
      (run port env n).2 =
        [.syscallE .cSocket, .syscallE (.cSetReuseAddr 1), .syscallE (.cSetV6Only 0),
         .syscallE (.cBind true (wirePort port)), .syscallE (.cListen 3)] ++
          (Event.printfE (listenMsg port) :: serveTrace env n)) := by
  constructor
  · intro h
    rw [run_eq]
    rcases eq_or_ne env.socketRet 0 with h1 | h1 <;>
      cases h2 : env.reuseOk <;> cases h3 : env.v6onlyOk <;>
      cases h4 : env.bindOk <;> cases h5 : env.listenOk <;>
        simp_all [bootOk, beq_iff_eq]
  · intro h
    simp only [bootOk, Bool.and_eq_true, Bool.not_eq_true', beq_eq_false_iff_ne] at h
    obtain ⟨⟨⟨⟨h1, h2⟩, h3⟩, h4⟩, h5⟩ := h
    rw [run_eq]
    simp [h1, h2, h3, h4, h5, bootTraceOk]

/-- Witness for C7 (amended): a failed setsockopt exits before the
message; a fully successful bootstrap prints it right after the calls. -/
theorem c7_witness :
    (run 1848 envReuseFail 0).1 = .pExited 1 ∧
    Event.exitE 1 ∈ (run 1848 envReuseFail 0).2 ∧
    (run 1848 envAll 0).2 =
      [.syscallE .cSocket, .syscallE (.cSetReuseAddr 1), .syscallE (.cSetV6Only 0),
       .syscallE (.cBind true (wirePort 1848)), .syscallE (.cListen 3)] ++
        (Event.printfE (listenMsg 1848) :: serveTrace envAll 0) :=
  ⟨((c7_message_after_checks 1848 envReuseFail 0).1 (by decide)).1,
   ((c7_message_after_checks 1848 envReuseFail 0).1 (by decide)).2.1,
   (c7_message_after_checks 1848 envAll 0).2 (by decide)⟩

/-- C8: a descriptor that no accept ever returned — in particular the
listening socket's — is never closed during a run; each accepted
descriptor is closed within its own iteration; and after every completed
iteration no connection descriptor remains open, so at most one
connection handle is held at any accept call. -/
theorem c8_descriptor_invariant (port : Int) (env : Env) (n : Nat) (sfd : Nat)
    (hs : ∀ k, env.accepts k ≠ some sfd) :
    Event.closeE sfd ∉ (run port env n).2 ∧
    openSet (run port env n).2 = [] ∧
    (∀ fd, Event.acceptedE fd ∈ iterTrace (some fd) ∧
      Event.closeE fd ∈ iterTrace (some fd)) := by
  refine ⟨fun hmem => ?_, ?_, fun fd => ⟨by simp [iterTrace], by simp [iterTrace]⟩⟩
  · obtain ⟨k, _, hk⟩ := close_in_run port env n sfd hmem
    exact hs k hk
  · rw [run_eq]
    rcases eq_or_ne env.socketRet 0 with h1 | h1 <;>
      cases h2 : env.reuseOk <;> cases h3 : env.v6onlyOk <;>
      cases h4 : env.bindOk <;> cases h5 : env.listenOk <;>
        simp [h1, openSet, openStep, List.foldl_append, bootTraceOk, openFold_serve]

/-- Witness for C8: descriptor 3 is never handed out by `envAll`, so it
is never closed; all accepted descriptors are closed again. -/
theorem c8_witness :
    openSet (run 1848 envAll 2).2 = [] ∧
    Event.closeE 9 ∈ iterTrace (some 9) :=
  ⟨(c8_descriptor_invariant 1848 envAll 2 3 (by intro k; simp [envAll])).2.1,
   ((c8_descriptor_invariant 1848 envAll 2 3 (by intro k; simp [envAll])).2.2 9).2⟩

/-- C9: when a first argument is present but contains no parsable
number, `atoi` returns 0 and the server binds port 0, not the 1848
default; the default applies exactly when no argument is given. -/
theorem c9_nonnumeric_binds_zero :
    (∀ (prog a : String) (rest : List String), noNumber a = true →
      atoi a = 0 ∧ boundPort (prog :: a :: rest) = 0) ∧
    (∀ prog : String, boundPort [prog] = 1848) := by
  constructor
  · intro prog a rest h
    have h0 := atoi_noNumber a h
    refine ⟨h0, ?_⟩
    show wirePort (atoi a) = 0
    rw [h0]
    rfl
  · intro prog
    rfl

/-- Witness for C9: the non-numeric argument "foo" binds port 0. -/
theorem c9_witness :
    atoi "foo" = 0 ∧ boundPort ["server", "foo", "x"] = 0 ∧ boundPort ["server"] = 1848 :=
  ⟨(c9_nonnumeric_binds_zero.1 "server" "foo" ["x"] (by decide)).1,
   (c9_nonnumeric_binds_zero.1 "server" "foo" ["x"] (by decide)).2,
   c9_nonnumeric_binds_zero.2 "server"⟩

/-- C3 as stated is false: the argument "65536" is a decimal integer,
but the port bound is 0, not 65536. -/
theorem c3_counterexample :
    boundPort ["server", "65536"] = 0 ∧
    decide (boundPort ["server", "65536"] = 65536) = false :=
  ⟨by decide, by decide⟩

/-- C3 (amended): with no command-line argument the server binds port
1848; when the first argument is a decimal integer N with N < 65536 the
server binds port N (out-of-range values are truncated, see C10); the
bind call of any successful bootstrap carries exactly the computed
16-bit port. -/
theorem c3_port_selection (prog : String) (rest : List String) (cs : List Char)
    (env : Env) (n : Nat) :
    boundPort [prog] = 1848 ∧
    (cs ≠ [] → cs.all Char.isDigit = true → decValue cs < 65536 →
      boundPort (prog :: String.mk cs :: rest) = decValue cs) ∧
    (bootOk env = true → ∀ p : Int,
      Event.syscallE (.cBind true (wirePort p)) ∈ (run p env n).2) ∧
    boundPort (prog :: String.mk cs :: rest) = wirePort (portOf (prog :: String.mk cs :: rest)) := by
  refine ⟨rfl, fun hne hd hlt => ?_, fun hb p => ?_, rfl⟩
  · show wirePort (atoi (String.mk cs)) = decValue cs
    rw [atoi_digits cs hne hd]
    unfold wirePort
    omega
  · simp only [bootOk, Bool.and_eq_true, Bool.not_eq_true', beq_eq_false_iff_ne] at hb
    obtain ⟨⟨⟨⟨h1, h2⟩, h3⟩, h4⟩, h5⟩ := hb
    rw [run_eq]
    simp [h1, h2, h3, h4, h5, bootTraceOk]

/-- Witness for C3 (amended): the digit argument "1848" binds port 1848,
and a successful run issues the bind call with that port. -/
theorem c3_witness :
    boundPort ["server", String.mk ['1', '8', '4', '8']] = decValue ['1', '8', '4', '8'] ∧
    Event.syscallE (.cBind true (wirePort 1848)) ∈ (run 1848 envAll 1).2 :=
  ⟨(c3_port_selection "server" [] ['1', '8', '4', '8'] envAll 1).2.1
      (by decide) (by decide) (by decide),
   (c3_port_selection "server" [] ['1', '8', '4', '8'] envAll 1).2.2.1 (by decide) 1848⟩

/-- C10: an out-of-range numeric argument is not rejected: the bound
port is the argument's decimal value reduced modulo 2^16; in particular
argument 65536 binds port 0. -/
theorem c10_port_truncation (prog : String) (rest : List String) (cs : List Char) :
    (cs ≠ [] → cs.all Char.isDigit = true →
      boundPort (prog :: String.mk cs :: rest) = decValue cs % 65536) ∧
    boundPort ["server", "65536"] = 0 := by
  refine ⟨fun hne hd => ?_, by decide⟩
  show wirePort (atoi (String.mk cs)) = decValue cs % 65536
  rw [atoi_digits cs hne hd]
  unfold wirePort
  omega

/-- Witness for C10: argument "65536" is reduced modulo 2^16. -/
theorem c10_witness :
    boundPort ["server", String.mk ['6', '5', '5', '3', '6']] =
      decValue ['6', '5', '5', '3', '6'] % 65536 :=
  (c10_port_truncation "server" [] ['6', '5', '5', '3', '6']).1 (by decide) (by decide)

end FlyTest
